import Mathlib

/-!
Verification of the `foobar` ink! contract (src/foobar/lib.rs).

The contract stores a single boolean `value`. Its constructors and
messages are embedded as pure Lean functions returning the new state
together with the list of events emitted during the call, in emission
order. The event types `Created` and `Flipped` from the source are
merged into one Lean inductive so a single call's emissions form one
homogeneous list.
-/

/-- Events the contract can emit: `Created { message }` and
`Flipped { flip }` from src/foobar/lib.rs. -/
inductive Event where
  | created (message : String)
  | flipped (flip : Bool)
deriving DecidableEq, Repr

/-- Storage struct `Foobar { value: bool }` (the `#[ink(storage)]` struct). -/
structure Foobar where
  value : Bool
deriving DecidableEq, Repr

namespace Foobar

/-- Constructor `Foobar::new(init_value: bool)`: emits
`Created { message: "Foobar created" }` and returns `Self { value: init_value }`. -/
def new (init_value : Bool) : Foobar × List Event :=
  ({ value := init_value }, [Event.created "Foobar created"])

/-- Rust's `Default::default()` for `bool`, used by `Foobar::default`. -/
def boolDefault : Bool := false

/-- Constructor `Foobar::default()`: delegates to `Self::new(Default::default())`. -/
def default : Foobar × List Event :=
  new boolDefault

/-- Message `Foobar::flip(&mut self)`: sets `self.value = !self.value`, then
emits `Flipped { flip: self.value }` with the updated value. Returns the
mutated state and the events emitted by the call. -/
def flip (self : Foobar) : Foobar × List Event :=
  let self' : Foobar := { self with value := !self.value }
  (self', [Event.flipped self'.value])

/-- Message `Foobar::get(&self) -> bool`: returns `self.value`. It takes
`&self`, so the state is returned unchanged and no events are emitted; the
embedding makes both facts explicit by returning the (result, state, events)
triple of the call. -/
def get (self : Foobar) : Bool × Foobar × List Event :=
  (self.value, self, [])

/-- Iterate the state effect of `flip` n times (events of intermediate calls
are not collected; only the state thread matters for the parity law). -/
def flipIter (s : Foobar) : Nat → Foobar
  | 0 => s
  | n + 1 => (flip (flipIter s n)).1

end Foobar

/-- C1: for every state `v` of the store, one call to `flip` sets `value`
to `!v`, so a subsequent `get` returns `!v`. -/
theorem c1_toggle_negates (s : Foobar) :
    (Foobar.get (Foobar.flip s).1).1 = !(Foobar.get s).1 := by
  cases s with
  | mk v => cases v <;> rfl

/-- C2: for every boolean `v`, constructing the store with `new v` yields a
state on which `get` returns `v`. -/
theorem c2_new_get (v : Bool) :
    (Foobar.get (Foobar.new v).1).1 = v := by
  cases v <;> rfl

/-- C3: every call to `flip` emits exactly one `Flipped` event (the event
list is a singleton), and the boolean it carries equals the value `get`
returns on the post-flip state. -/
theorem c3_flip_event (s : Foobar) :
    (Foobar.flip s).2 = [Event.flipped (Foobar.get (Foobar.flip s).1).1] := by
  cases s with
  | mk v => cases v <;> rfl

/-- C4: every call to `new v`, and the call to `default`, emits exactly one
`Created` event carrying the message "Foobar created"; `default` does not
emit a second event despite delegating to `new`. -/
theorem c4_creation_event (v : Bool) :
    (Foobar.new v).2 = [Event.created "Foobar created"] ∧
    Foobar.default.2 = [Event.created "Foobar created"] :=
  ⟨rfl, rfl⟩

/-- C5: `default` is equivalent to `new false`: identical resulting state
(so `get` returns `false` on it) and identical emitted events. -/
theorem c5_default_is_new_false :
    Foobar.default = Foobar.new false ∧
    (Foobar.get Foobar.default.1).1 = false :=
  ⟨rfl, rfl⟩

/-- C6: for every state, applying `flip` twice returns the store to a state
where `get` gives the original value. -/
theorem c6_double_toggle (s : Foobar) :
    (Foobar.get (Foobar.flip (Foobar.flip s).1).1).1 = (Foobar.get s).1 := by
  cases s with
  | mk v => cases v <;> rfl

/-- C7: `get` is a pure read: it returns the current `value`, leaves the
state unchanged and emits no events. -/
theorem c7_get_pure (s : Foobar) :
    (Foobar.get s).1 = s.value ∧
    (Foobar.get s).2.1 = s ∧
    (Foobar.get s).2.2 = [] :=
  ⟨rfl, rfl, rfl⟩

/-- C8: the end-to-end scenario: from `new false`, `get` returns `false`;
after one `flip`, `get` returns `true`; after a second `flip`, `get`
returns `false` again. -/
theorem c8_end_to_end :
    (Foobar.get (Foobar.new false).1).1 = false ∧
    (Foobar.get (Foobar.flip (Foobar.new false).1).1).1 = true ∧
    (Foobar.get (Foobar.flip (Foobar.flip (Foobar.new false).1).1).1).1 = false :=
  ⟨rfl, rfl, rfl⟩

/-- Helper: the value after iterating `flip` n times from a state depends
only on the parity of n. -/
theorem flipIter_value (s : Foobar) (n : Nat) :
    (Foobar.flipIter s n).value =
      (if n % 2 = 0 then s.value else !s.value) := by
  induction n with
  | zero => simp [Foobar.flipIter]
  | succ n ih =>
    rcases Nat.mod_two_eq_zero_or_one n with h | h
    · have h' : (n + 1) % 2 = 1 := by omega
      simp [Foobar.flipIter, Foobar.flip, ih, h, h']
    · have h' : (n + 1) % 2 = 0 := by omega
      simp [Foobar.flipIter, Foobar.flip, ih, h, h']

/-- C9: parity law: for every initial value `v` and count `n`, after `n`
successive `flip` calls starting from `new v`, `get` returns `v` when `n`
is even and `!v` when `n` is odd. -/
theorem c9_parity (v : Bool) (n : Nat) :
    (Foobar.get (Foobar.flipIter (Foobar.new v).1 n)).1 =
      (if n % 2 = 0 then v else !v) := by
  have := flipIter_value (Foobar.new v).1 n
  simpa [Foobar.get, Foobar.new] using this

/-- C10: the creation event does not depend on the constructor argument:
`new true` and `new false` emit identical event lists (the initial value
flows only into the stored state, never into the event). -/
theorem c10_creation_noninterference :
    (Foobar.new true).2 = (Foobar.new false).2 :=
  rfl
